import Mathlib

/-!
Verification of the OneShare signaling server (src/index.ts, src/models/ShareRoom.ts).

The server state is embedded shallowly:
* the MongoDB collection of `ShareRoom` documents is an insertion-ordered list
  (Mongo's `findOne` / `findOneAndDelete` / `updateOne` act on the first match
  in natural order);
* Socket.io group (room) membership and the set of connected sockets are part
  of the state, since handlers read them (`allSockets`, `socket.to`,
  `socket.broadcast`);
* each event handler is a function from state and inputs to the new state and
  the list of addressed outbound messages;
* the WebRTC relay handlers, which have no try/catch in source, return
  `Except`: `Except.error` models the TypeError thrown when the payload is
  nullish;
* `nanoid` is modelled over an explicit stream of random bytes.
-/

namespace OneShare

/-- One file-metadata record, as in `FileMetadataSchema`
(src/models/ShareRoom.ts).  Mongoose `required: true` on a `String` path
rejects `null` and the empty string; the `Number` path `fileSize` only
requires a numeric value and imposes no sign or integrality constraint. -/
structure FileMetadata where
  originalName : String
  fileSize : Int
  mimeType : String
deriving Repr, DecidableEq

/-- One `ShareRoom` document, as in `ShareRoomSchema`
(src/models/ShareRoom.ts).  `createdAt` is informational only and not
modelled. -/
structure ShareRoom where
  shareId : String
  senderSocketId : String
  receiverSocketIds : List String
  fileMetadata : List FileMetadata
  isWaiting : Bool
  deletionKey : String
deriving Repr, DecidableEq

/-- Payload of an outbound Socket.io event emitted by the server. -/
inductive Payload where
  | roomCreated (shareId : String) (deletionKey : String)
  | errMsg (message : String)
  | joinSuccess (fileMetadata : List FileMetadata) (otherPeerSocketIds : List String)
  | newPeerJoined (peerSocketId : String)
  | offerReceived (offer : Option String) (senderSocketId : String)
  | answerReceived (answer : Option String) (senderSocketId : String)
  | candidateReceived (candidate : Option String) (senderSocketId : String)
  | roomClosedBySender
  | peerLeft (peerSocketId : String)
deriving Repr, DecidableEq

/-- One outbound message: the socket it is addressed to, the event name and
the payload. -/
structure Msg where
  recipient : String
  event : String
  payload : Payload
deriving Repr, DecidableEq

/-- The server state: the durable `sharerooms` collection (insertion order
kept), Socket.io group membership (group name to member sockets), and the
connected sockets. -/
structure ServerState where
  db : List ShareRoom
  groups : List (String × List String)
  connected : List String
deriving Repr, DecidableEq

/-- `socket.join(room)`: add `sid` to the group named `room`.  Socket.io
joining is idempotent: a socket already in the room is not added again. -/
def socketJoin (groups : List (String × List String)) (room sid : String) :
    List (String × List String) :=
  match groups with
  | [] => [(room, [sid])]
  | (g, ms) :: rest =>
    if g = room then
      (if sid ∈ ms then (g, ms) else (g, ms ++ [sid])) :: rest
    else (g, ms) :: socketJoin rest room sid

/-- Members of a group (`io.in(room).allSockets()`). -/
def groupMembers (groups : List (String × List String)) (room : String) :
    List String :=
  match groups with
  | [] => []
  | (g, ms) :: rest => if g = room then ms else groupMembers rest room

/-- On disconnect Socket.io removes the socket from every room before the
`disconnect` handler runs. -/
def leaveAll (groups : List (String × List String)) (sid : String) :
    List (String × List String) :=
  groups.map (fun g => (g.1, g.2.filter (fun m => m != sid)))

/-- Mongoose validation of one metadata sub-document at `save()` time:
`originalName` and `mimeType` are `required` strings (empty rejected),
`fileSize` is `required` but any number passes. -/
def validRecord (f : FileMetadata) : Bool :=
  f.originalName != "" && f.mimeType != ""

/-- Mongoose validation of a whole `ShareRoom` document at `save()` time:
the three required string paths plus every metadata sub-document. -/
def saveValid (room : ShareRoom) : Bool :=
  room.shareId != "" && room.senderSocketId != "" && room.deletionKey != "" &&
    room.fileMetadata.all validRecord

/-- The `create-room` handler (src/index.ts lines 90-124).  `fileMetadata`
is the client payload: `none` stands for a nullish or non-array value, which
the handler guard rejects together with the empty array.  `shareId` and
`deletionKey` are the two values `nanoid` produced for this invocation
(`nanoid` is called exactly once for each, lines 98-99).  `save()` throws on
a mongoose validation failure or on a violated unique index
(`shareId` / `deletionKey`); the catch block turns any throw into a single
`create-room-error` reply to the caller. -/
def createRoom (st : ServerState) (sid : String)
    (fileMetadata : Option (List FileMetadata)) (shareId deletionKey : String) :
    ServerState × List Msg :=
  match fileMetadata with
  | none => (st, [⟨sid, "create-room-error", Payload.errMsg "Invalid file metadata provided."⟩])
  | some md =>
    if md.length = 0 then
      (st, [⟨sid, "create-room-error", Payload.errMsg "Invalid file metadata provided."⟩])
    else
      if !(saveValid ⟨shareId, sid, [], md, true, deletionKey⟩) then
        (st, [⟨sid, "create-room-error", Payload.errMsg "Failed to create room on server."⟩])
      else if st.db.any (fun r => r.shareId == shareId)
          || st.db.any (fun r => r.deletionKey == deletionKey) then
        (st, [⟨sid, "create-room-error", Payload.errMsg "Failed to create room on server."⟩])
      else
        ({ st with db := st.db ++ [(⟨shareId, sid, [], md, true, deletionKey⟩ : ShareRoom)],
                   groups := socketJoin st.groups shareId sid },
         [⟨sid, "room-created", Payload.roomCreated shareId deletionKey⟩])

/-- `updateOne({shareId}, {$push: {receiverSocketIds: sid}})`: append `sid`
to the receiver list of the first document whose `shareId` matches.  `$push`
appends unconditionally. -/
def pushFirst (db : List ShareRoom) (shareId sid : String) : List ShareRoom :=
  match db with
  | [] => []
  | r :: rest =>
    if r.shareId = shareId then
      { r with receiverSocketIds := r.receiverSocketIds ++ [sid] } :: rest
    else r :: pushFirst rest shareId sid

/-- The `join-room` handler (src/index.ts lines 132-176).  Looks up the
first document with the given `shareId` and `isWaiting: true`; if none, one
`join-room-error` reply to the caller and no state change.  Otherwise the
caller joins the group, its id is `$push`ed, the caller gets `join-success`
with the room's metadata and the other group members, and every other group
member gets `new-peer-joined`. -/
def joinRoom (st : ServerState) (sid : String) (shareId : String) :
    ServerState × List Msg :=
  match st.db.find? (fun r => r.shareId == shareId && r.isWaiting) with
  | none =>
    (st, [⟨sid, "join-room-error", Payload.errMsg "Room not found or is no longer available!"⟩])
  | some room =>
    let groups1 := socketJoin st.groups shareId sid
    let db1 := pushFirst st.db shareId sid
    let others := (groupMembers groups1 shareId).filter (fun m => m != sid)
    ({ st with db := db1, groups := groups1 },
     ⟨sid, "join-success", Payload.joinSuccess room.fileMetadata others⟩ ::
       others.map (fun m => ⟨m, "new-peer-joined", Payload.newPeerJoined sid⟩))

/-- The data object of a WebRTC relay event.  Each field may be absent
(`none` models a missing property / `undefined`). -/
structure RelayData where
  targetSocketId : Option String
  offer : Option String
  answer : Option String
  candidate : Option String
deriving Repr, DecidableEq

/-- JavaScript truthiness of `data.targetSocketId`: `undefined`, `null` and
the empty string are falsy. -/
def isFalsy : Option String → Bool
  | none => true
  | some s => s == ""

/-- The `webrtc-offer` handler (src/index.ts lines 185-191).  There is no
try/catch: a nullish `data` makes `data.targetSocketId` throw a TypeError,
modelled as `Except.error`.  A falsy target silently drops the message;
otherwise the offer is forwarded to the target, tagged with the sender. -/
def webrtcOffer (sid : String) (data : Option RelayData) :
    Except String (List Msg) :=
  match data with
  | none => Except.error "TypeError: cannot read targetSocketId of nullish data"
  | some d =>
    match d.targetSocketId with
    | none => Except.ok []
    | some t =>
      if t = "" then Except.ok []
      else Except.ok [⟨t, "webrtc-offer-received", Payload.offerReceived d.offer sid⟩]

/-- The `webrtc-answer` handler (src/index.ts lines 193-199); same shape as
the offer relay. -/
def webrtcAnswer (sid : String) (data : Option RelayData) :
    Except String (List Msg) :=
  match data with
  | none => Except.error "TypeError: cannot read targetSocketId of nullish data"
  | some d =>
    match d.targetSocketId with
    | none => Except.ok []
    | some t =>
      if t = "" then Except.ok []
      else Except.ok [⟨t, "webrtc-answer-received", Payload.answerReceived d.answer sid⟩]

/-- The `webrtc-ice-candidate` handler (src/index.ts lines 201-207); same
shape as the offer relay. -/
def webrtcIceCandidate (sid : String) (data : Option RelayData) :
    Except String (List Msg) :=
  match data with
  | none => Except.error "TypeError: cannot read targetSocketId of nullish data"
  | some d =>
    match d.targetSocketId with
    | none => Except.ok []
    | some t =>
      if t = "" then Except.ok []
      else Except.ok [⟨t, "webrtc-ice-candidate-received", Payload.candidateReceived d.candidate sid⟩]

/-- The `disconnect` handler (src/index.ts lines 214-243).  Socket.io has
already removed the socket from every room and from the connected set when
the handler runs.  `findOneAndDelete({senderSocketId})` removes the first
document whose sender matches; if one was found the remaining group members
get `room-closed-by-sender`.  Otherwise `peer-left` is broadcast to every
other connected socket and `updateMany` `$pull`s the id from every receiver
list containing it. -/
def disconnect (st : ServerState) (sid : String) : ServerState × List Msg :=
  let groups1 := leaveAll st.groups sid
  let connected1 := st.connected.filter (fun m => m != sid)
  match st.db.find? (fun r => r.senderSocketId == sid) with
  | some roomAsSender =>
    ({ db := st.db.eraseP (fun r => r.senderSocketId == sid),
       groups := groups1, connected := connected1 },
     (groupMembers groups1 roomAsSender.shareId).map
       (fun m => ⟨m, "room-closed-by-sender", Payload.roomClosedBySender⟩))
  | none =>
    ({ db := st.db.map (fun r =>
         if sid ∈ r.receiverSocketIds then
           { r with receiverSocketIds := r.receiverSocketIds.filter (fun m => m != sid) }
         else r),
       groups := groups1, connected := connected1 },
     connected1.map (fun m => ⟨m, "peer-left", Payload.peerLeft sid⟩))

/-- A new client connection (`io.on('connection', ...)`). -/
def connect (st : ServerState) (sid : String) : ServerState :=
  { st with connected := st.connected ++ [sid] }

/-- The empty server state. -/
def initState : ServerState := { db := [], groups := [], connected := [] }

/-- The `nanoid` URL-safe alphabet (64 characters). -/
def urlAlphabet : List Char :=
  "useandom-26T198340PX75pxJACKVERYMINDBUSHWOLF_GQZbfghjklqvwyzrict".data

/-- `nanoid(size)` over an explicit random byte stream: character `i` is the
alphabet entry at index `bytes i & 63` (written `% 64`). -/
def nanoid (size : Nat) (bytes : Nat → Nat) : String :=
  String.mk ((List.range size).map (fun i => urlAlphabet.getD (bytes i % 64) 'u'))

/-- Number of messages in `msgs` addressed to `recipient` carrying `event`. -/
def msgCount (msgs : List Msg) (recipient event : String) : Nat :=
  (msgs.filter (fun m => m.recipient == recipient && m.event == event)).length

/-- Total number of occurrences of `sid` across the receiver lists of all
documents in `db`. -/
def recvCount (db : List ShareRoom) (sid : String) : Nat :=
  (db.map (fun r => r.receiverSocketIds.count sid)).sum

/-- Metadata list used by the concrete scenarios. -/
def mdA : List FileMetadata := [⟨"a.txt", 10, "text/plain"⟩]

/-- A stored session that is no longer waiting (closed), to exercise the
join guard. -/
def stClosed : ServerState :=
  { db := [⟨"ABCDEF", "S", [], mdA, false, "KKKKKKKKKK"⟩],
    groups := [], connected := ["R"] }

/-- State after sender `S` created room `ABCDEF`, with `R` also connected. -/
def stCreated : ServerState :=
  (createRoom (connect (connect initState "S") "R") "S" (some mdA) "ABCDEF" "KKKKKKKKKK").1

/-- State after receiver `R` joined room `ABCDEF` once. -/
def stJoined1 : ServerState := (joinRoom stCreated "R" "ABCDEF").1

/-- State after receiver `R` joined room `ABCDEF` twice. -/
def stJoined2 : ServerState := (joinRoom stJoined1 "R" "ABCDEF").1

/-- Sender `S` with receivers `R1` and `R2` joined to room `ABCDEF`. -/
def stFull : ServerState :=
  (joinRoom (joinRoom ((createRoom (connect (connect (connect initState "S") "R1") "R2")
    "S" (some mdA) "ABCDEF" "KKKKKKKKKK").1) "R1" "ABCDEF").1 "R2" "ABCDEF").1

/-- Sender `S` owning two sessions `AAAAAA` and `BBBBBB`. -/
def stTwoRooms : ServerState :=
  (createRoom ((createRoom (connect (connect initState "S") "R1")
    "S" (some mdA) "AAAAAA" "K1K1K1K1K1").1) "S" (some mdA) "BBBBBB" "K2K2K2K2K2").1

/-- `find?` returns the unique element satisfying the predicate. -/
theorem find?_unique {α : Type} (p : α → Bool) (r : α) :
    ∀ l : List α, r ∈ l → p r = true → (∀ x ∈ l, p x = true → x = r) →
      l.find? p = some r
  | [], hr, _, _ => absurd hr (List.not_mem_nil r)
  | a :: t, hr, hp, hu => by
    by_cases hpa : p a = true
    · rw [List.find?_cons_of_pos _ hpa, hu a (List.mem_cons_self a t) hpa]
    · rw [List.find?_cons_of_neg _ hpa]
      have hrt : r ∈ t := by
        rcases List.mem_cons.mp hr with h | h
        · exact absurd (h ▸ hp) hpa
        · exact h
      exact find?_unique p r t hrt hp fun x hx hpx => hu x (List.mem_cons_of_mem a hx) hpx

/-- Erasing the unique element satisfying the predicate from a duplicate-free
list leaves no element satisfying it. -/
theorem eraseP_no_match {α : Type} (p : α → Bool) (r : α) :
    ∀ l : List α, l.Nodup → r ∈ l → (∀ x ∈ l, p x = true → x = r) →
      ∀ x ∈ l.eraseP p, ¬ p x = true
  | [], _, hr, _ => absurd hr (List.not_mem_nil r)
  | a :: t, hnd, hr, hu => by
    by_cases hpa : p a = true
    · rw [List.eraseP_cons_of_pos hpa]
      intro x hx hpx
      have hxr := hu x (List.mem_cons_of_mem a hx) hpx
      have har := hu a (List.mem_cons_self a t) hpa
      have hat : a ∈ t := by rw [har, ← hxr]; exact hx
      exact (List.nodup_cons.mp hnd).1 hat
    · rw [List.eraseP_cons_of_neg hpa]
      intro x hx hpx
      rcases List.mem_cons.mp hx with h | h
      · exact hpa (h ▸ hpx)
      · have hrt : r ∈ t := by
          rcases List.mem_cons.mp hr with h2 | h2
          · have hxr : x = r := hu x (List.mem_cons_of_mem a (List.mem_of_mem_eraseP h)) hpx
            have hpr : p r = true := hxr ▸ hpx
            exact absurd (h2 ▸ hpr) hpa
          · exact h2
        exact eraseP_no_match p r t (List.nodup_cons.mp hnd).2 hrt
          (fun y hy hpy => hu y (List.mem_cons_of_mem a hy) hpy) x h hpx

/-- After erasing one matching element, a second distinct matching element is
still present. -/
theorem eraseP_exists_second {α : Type} (p : α → Bool) (a b : α) (hab : a ≠ b)
    (hpa : p a = true) (hpb : p b = true) :
    ∀ l : List α, a ∈ l → b ∈ l → ∃ x, x ∈ l.eraseP p ∧ p x = true
  | [], ha, _ => absurd ha (List.not_mem_nil a)
  | c :: t, ha, hb => by
    by_cases hpc : p c = true
    · rw [List.eraseP_cons_of_pos hpc]
      rcases List.mem_cons.mp ha with h1 | h1
      · rcases List.mem_cons.mp hb with h2 | h2
        · exact absurd (h1.trans h2.symm) hab
        · exact ⟨b, h2, hpb⟩
      · exact ⟨a, h1, hpa⟩
    · rw [List.eraseP_cons_of_neg hpc]
      have ha2 : a ∈ t := by
        rcases List.mem_cons.mp ha with h | h
        · exact absurd (h ▸ hpa) hpc
        · exact h
      have hb2 : b ∈ t := by
        rcases List.mem_cons.mp hb with h | h
        · exact absurd (h ▸ hpb) hpc
        · exact h
      obtain ⟨x, hx, hpx⟩ := eraseP_exists_second p a b hab hpa hpb t ha2 hb2
      exact ⟨x, List.mem_cons_of_mem c hx, hpx⟩

/-- Counting one recipient in a constant-event fan-out equals counting it in
the recipient list. -/
theorem msgCount_map_const (ev : String) (pl : Payload) (x : String)
    (l : List String) :
    msgCount (l.map fun m => ⟨m, ev, pl⟩) x ev = l.count x := by
  rw [msgCount, List.filter_map, List.length_map, List.count,
    List.countP_eq_length_filter]
  congr 1
  apply List.filter_congr
  intro a _
  simp [Function.comp]

/-- Filtering out an absent element is the identity. -/
theorem filter_bne_of_not_mem {sid : String} {l : List String} (h : sid ∉ l) :
    l.filter (fun m => m != sid) = l :=
  List.filter_eq_self.mpr fun a ha => by
    rw [bne_iff_ne]
    exact fun heq => h (heq ▸ ha)

/-- A failed lookup in `join-room`: if no stored document has the requested
`shareId` with `isWaiting`, the state is unchanged and the caller gets the
single not-found error reply. -/
theorem join_not_found (st : ServerState) (sid p : String)
    (h : ∀ r ∈ st.db, ¬(r.shareId = p ∧ r.isWaiting = true)) :
    joinRoom st sid p =
      (st, [⟨sid, "join-room-error", Payload.errMsg "Room not found or is no longer available!"⟩]) := by
  have hfind : st.db.find? (fun r => r.shareId == p && r.isWaiting) = none := by
    rw [List.find?_eq_none]
    intro x hx hpx
    simp only [Bool.and_eq_true, beq_iff_eq] at hpx
    exact h x hx ⟨hpx.1, hpx.2⟩
  unfold joinRoom
  rw [hfind]

/-- A successful `$push` raises the total occurrence count of the pushed id
by exactly one, provided a document with the share id exists. -/
theorem recvCount_pushFirst (sid p : String) :
    ∀ db : List ShareRoom, (∃ r ∈ db, r.shareId = p) →
      recvCount (pushFirst db p sid) sid = recvCount db sid + 1
  | [], h => absurd h (by simp)
  | r :: t, h => by
    by_cases hr : r.shareId = p
    · simp [pushFirst, hr, recvCount, List.count_append]
      omega
    · have h2 : ∃ x ∈ t, x.shareId = p := by
        obtain ⟨x, hx, hxp⟩ := h
        rcases List.mem_cons.mp hx with he | he
        · exact absurd (he ▸ hxp) hr
        · exact ⟨x, he, hxp⟩
      have ih := recvCount_pushFirst sid p t h2
      simp [pushFirst, hr, recvCount] at ih ⊢
      omega

/-- C6: a join request for a `publicId` that has no open session — whether
the id was never created or the session exists but is closed — leaves the
state unchanged and replies to the caller with the one fixed `NotFound`
error; the two cases produce literally identical responses. -/
theorem C6_join_missing_or_closed (st : ServerState) (sid p : String)
    (h : ∀ r ∈ st.db, ¬(r.shareId = p ∧ r.isWaiting = true)) :
    joinRoom st sid p =
      (st, [⟨sid, "join-room-error",
        Payload.errMsg "Room not found or is no longer available!"⟩]) :=
  join_not_found st sid p h

/-- C6 witness: joining the closed session `ABCDEF` in `stClosed` fails with
the not-found reply. -/
theorem C6_witness :
    (∀ r ∈ stClosed.db, ¬(r.shareId = "ABCDEF" ∧ r.isWaiting = true)) ∧
    joinRoom stClosed "R2" "ABCDEF" =
      (stClosed, [⟨"R2", "join-room-error",
        Payload.errMsg "Room not found or is no longer available!"⟩]) :=
  ⟨by decide, C6_join_missing_or_closed stClosed "R2" "ABCDEF" (by decide)⟩

/-- C8: for each relay kind, a missing or empty target drops the message
silently (no forwarded event and no error to the sender), and a non-empty
target forwards the payload verbatim to the addressed connection only,
tagged with the forwarding connection's identity. -/
theorem C8_relay_behaviour (sid : String) (d : RelayData) :
    (isFalsy d.targetSocketId = true →
      webrtcOffer sid (some d) = Except.ok [] ∧
      webrtcAnswer sid (some d) = Except.ok [] ∧
      webrtcIceCandidate sid (some d) = Except.ok []) ∧
    (∀ t, d.targetSocketId = some t → t ≠ "" →
      webrtcOffer sid (some d) =
        Except.ok [⟨t, "webrtc-offer-received", Payload.offerReceived d.offer sid⟩] ∧
      webrtcAnswer sid (some d) =
        Except.ok [⟨t, "webrtc-answer-received", Payload.answerReceived d.answer sid⟩] ∧
      webrtcIceCandidate sid (some d) =
        Except.ok [⟨t, "webrtc-ice-candidate-received",
          Payload.candidateReceived d.candidate sid⟩]) := by
  constructor
  · intro hf
    cases ht : d.targetSocketId with
    | none => simp [webrtcOffer, webrtcAnswer, webrtcIceCandidate, ht]
    | some t =>
      rw [ht] at hf
      simp only [isFalsy, beq_iff_eq] at hf
      simp [webrtcOffer, webrtcAnswer, webrtcIceCandidate, ht, hf]
  · intro t ht hne
    simp [webrtcOffer, webrtcAnswer, webrtcIceCandidate, ht, hne]

/-- C8 witness: a relay with target `T` forwards the offer to `T` tagged
with the sender `S`. -/
theorem C8_witness :
    (RelayData.mk (some "T") (some "offer-sdp") none none).targetSocketId = some "T" ∧
    ("T" : String) ≠ "" ∧
    webrtcOffer "S" (some ⟨some "T", some "offer-sdp", none, none⟩) =
      Except.ok [⟨"T", "webrtc-offer-received", Payload.offerReceived (some "offer-sdp") "S"⟩] :=
  ⟨rfl, by decide,
    ((C8_relay_behaviour "S" ⟨some "T", some "offer-sdp", none, none⟩).2 "T" rfl (by decide)).1⟩

/-- C3 counterexample: the relay handlers have no try/catch, so a nullish
payload makes `data.targetSocketId` throw a TypeError instead of being
caught at the handler boundary — refuting the claim that the relay handlers
never throw for any input payload shape. -/
theorem C3_counterexample :
    webrtcOffer "peer1" none =
      Except.error "TypeError: cannot read targetSocketId of nullish data" ∧
    webrtcAnswer "peer1" none =
      Except.error "TypeError: cannot read targetSocketId of nullish data" ∧
    webrtcIceCandidate "peer1" none =
      Except.error "TypeError: cannot read targetSocketId of nullish data" :=
  ⟨rfl, rfl, rfl⟩

/-- C3 amended: the create, join and disconnect handlers are guarded — an
error notification they emit goes only to the originating connection, and
disconnect emits no error event at all — and the relay handlers never throw
on a non-nullish payload; but a nullish relay payload throws. -/
theorem C3_fault_boundary (st : ServerState) (sid : String) :
    (∀ fm shareId dk m, m ∈ (createRoom st sid fm shareId dk).2 →
        m.event = "create-room-error" → m.recipient = sid) ∧
    (∀ p m, m ∈ (joinRoom st sid p).2 →
        m.event = "join-room-error" → m.recipient = sid) ∧
    (∀ m, m ∈ (disconnect st sid).2 →
        m.event = "room-closed-by-sender" ∨ m.event = "peer-left") ∧
    (∀ d, (∃ ms, webrtcOffer sid (some d) = Except.ok ms) ∧
        (∃ ms, webrtcAnswer sid (some d) = Except.ok ms) ∧
        (∃ ms, webrtcIceCandidate sid (some d) = Except.ok ms)) ∧
    (webrtcOffer sid none =
        Except.error "TypeError: cannot read targetSocketId of nullish data") := by
  refine ⟨?_, ?_, ?_, ?_, rfl⟩
  · intro fm shareId dk m hm hev
    unfold createRoom at hm
    split at hm
    · simp at hm; simp [hm]
    · split at hm
      · simp at hm; simp [hm]
      · split at hm
        · simp at hm; simp [hm]
        · split at hm
          · simp at hm; simp [hm]
          · simp at hm
            rw [hm] at hev
            simp at hev
  · intro p m hm hev
    unfold joinRoom at hm
    split at hm
    · simp at hm; simp [hm]
    · simp at hm
      rcases hm with hm | ⟨y, hy, hm⟩
      · rw [hm] at hev; simp at hev
      · rw [← hm] at hev; simp at hev
  · intro m hm
    unfold disconnect at hm
    split at hm
    · left
      simp at hm
      obtain ⟨y, hy, hm⟩ := hm
      rw [← hm]
    · right
      simp at hm
      obtain ⟨y, hy, hm⟩ := hm
      rw [← hm]
  · intro d
    refine ⟨?_, ?_, ?_⟩
    · cases ht : d.targetSocketId with
      | none => exact ⟨[], by simp [webrtcOffer, ht]⟩
      | some t =>
        by_cases hte : t = ""
        · exact ⟨[], by simp [webrtcOffer, ht, hte]⟩
        · exact ⟨[⟨t, "webrtc-offer-received", Payload.offerReceived d.offer sid⟩],
            by simp [webrtcOffer, ht, hte]⟩
    · cases ht : d.targetSocketId with
      | none => exact ⟨[], by simp [webrtcAnswer, ht]⟩
      | some t =>
        by_cases hte : t = ""
        · exact ⟨[], by simp [webrtcAnswer, ht, hte]⟩
        · exact ⟨[⟨t, "webrtc-answer-received", Payload.answerReceived d.answer sid⟩],
            by simp [webrtcAnswer, ht, hte]⟩
    · cases ht : d.targetSocketId with
      | none => exact ⟨[], by simp [webrtcIceCandidate, ht]⟩
      | some t =>
        by_cases hte : t = ""
        · exact ⟨[], by simp [webrtcIceCandidate, ht, hte]⟩
        · exact ⟨[⟨t, "webrtc-ice-candidate-received",
              Payload.candidateReceived d.candidate sid⟩],
            by simp [webrtcIceCandidate, ht, hte]⟩

/-- C3 witness: a malformed create payload produces an error reply addressed
to the originating connection only. -/
theorem C3_witness :
    Msg.mk "S" "create-room-error" (Payload.errMsg "Invalid file metadata provided.")
        ∈ (createRoom initState "S" none "AAAAAA" "KKKKKKKKKK").2 ∧
    Msg.recipient ⟨"S", "create-room-error",
        Payload.errMsg "Invalid file metadata provided."⟩ = "S" :=
  ⟨by decide,
    (C3_fault_boundary initState "S").1 none "AAAAAA" "KKKKKKKKKK" _ (by decide) rfl⟩

/-- C1 counterexample: the same connection `R` joining session `ABCDEF`
twice leaves its id twice in `receiverSocketIds` — the `$push` append is not
idempotent, refuting the no-duplicates claim. -/
theorem C1_counterexample :
    stJoined2.db = [⟨"ABCDEF", "S", ["R", "R"], mdA, true, "KKKKKKKKKK"⟩] ∧
    ¬ ∀ r ∈ stJoined2.db, r.receiverSocketIds.Nodup := by
  constructor
  · decide
  · decide

/-- C1 amended: every successful join appends the joining id to the matched
session's receiver list unconditionally, so the total occurrence count of
that id across all receiver lists grows by exactly one per join — joining
twice yields a duplicate entry. -/
theorem C1_push_not_idempotent (st : ServerState) (sid p : String) (r : ShareRoom)
    (hfind : st.db.find? (fun x => x.shareId == p && x.isWaiting) = some r) :
    recvCount (joinRoom st sid p).1.db sid = recvCount st.db sid + 1 := by
  have hmem := List.mem_of_find?_eq_some hfind
  have hp := List.find?_some hfind
  simp only [Bool.and_eq_true, beq_iff_eq] at hp
  unfold joinRoom
  rw [hfind]
  exact recvCount_pushFirst sid p st.db ⟨r, hmem, hp.1⟩

/-- C1 witness: the second join of `R` raises its occurrence count from one
to two. -/
theorem C1_witness :
    stJoined1.db.find? (fun x => x.shareId == "ABCDEF" && x.isWaiting) =
      some ⟨"ABCDEF", "S", ["R"], mdA, true, "KKKKKKKKKK"⟩ ∧
    recvCount (joinRoom stJoined1 "R" "ABCDEF").1.db "R" =
      recvCount stJoined1.db "R" + 1 :=
  ⟨by decide,
    C1_push_not_idempotent stJoined1 "R" "ABCDEF"
      ⟨"ABCDEF", "S", ["R"], mdA, true, "KKKKKKKKKK"⟩ (by decide)⟩

/-- C2 counterexample: with session `ABCDEF` already stored, a create whose
generated `shareId` collides fails immediately with the generic error reply
and an unchanged store — there is no regeneration retry and no distinct
`ResourceExhausted` outcome. -/
theorem C2_counterexample :
    createRoom stCreated "S2" (some mdA) "ABCDEF" "NEWKEY1234" =
      (stCreated, [⟨"S2", "create-room-error",
        Payload.errMsg "Failed to create room on server."⟩]) := by decide

/-- C2 amended: `publicId` and `deletionSecret` are generated exactly once
per request; any uniqueness-constraint violation makes `save` throw, and the
handler replies with one generic `create-room-error` to the initiator and
persists nothing — no retry, no `ResourceExhausted`. -/
theorem C2_no_retry (st : ServerState) (sid : String) (md : List FileMetadata)
    (shareId dk : String) (hmd : md ≠ [])
    (hcol : (∃ r ∈ st.db, r.shareId = shareId) ∨ (∃ r ∈ st.db, r.deletionKey = dk)) :
    createRoom st sid (some md) shareId dk =
      (st, [⟨sid, "create-room-error",
        Payload.errMsg "Failed to create room on server."⟩]) := by
  have hlen : ¬ md.length = 0 := fun h => hmd (List.eq_nil_of_length_eq_zero h)
  have hany : (st.db.any (fun r => r.shareId == shareId)
      || st.db.any (fun r => r.deletionKey == dk)) = true := by
    rcases hcol with ⟨r, hr, he⟩ | ⟨r, hr, he⟩
    · have h1 : st.db.any (fun r => r.shareId == shareId) = true :=
        List.any_eq_true.mpr ⟨r, hr, by simp [he]⟩
      simp [h1]
    · have h1 : st.db.any (fun r => r.deletionKey == dk) = true :=
        List.any_eq_true.mpr ⟨r, hr, by simp [he]⟩
      simp [h1]
  by_cases hv : (!(saveValid ⟨shareId, sid, [], md, true, dk⟩)) = true
  · simp [createRoom, hlen, hv]
  · simp [createRoom, hlen, hv, hany]

/-- C2 witness: the collision scenario of the counterexample, through the
amended theorem. -/
theorem C2_witness :
    mdA ≠ [] ∧
    ((∃ r ∈ stCreated.db, r.shareId = "ABCDEF") ∨
      (∃ r ∈ stCreated.db, r.deletionKey = "NEWKEY1234")) ∧
    createRoom stCreated "S2" (some mdA) "ABCDEF" "NEWKEY1234" =
      (stCreated, [⟨"S2", "create-room-error",
        Payload.errMsg "Failed to create room on server."⟩]) :=
  ⟨by decide, by decide,
    C2_no_retry stCreated "S2" mdA "ABCDEF" "NEWKEY1234" (by decide) (by decide)⟩

/-- C7 counterexample: a metadata record with a negative size (`-10`) is
accepted and persisted by create — the handler only checks for a non-empty
array and the schema places no lower bound on `fileSize` — refuting the
claim that such input fails with `InvalidInput`. -/
theorem C7_counterexample :
    createRoom (connect initState "S") "S" (some [⟨"a.txt", -10, "text/plain"⟩])
        "XYZXYZ" "QQQQQQQQQQ" =
      ({ db := [⟨"XYZXYZ", "S", [], [⟨"a.txt", -10, "text/plain"⟩], true, "QQQQQQQQQQ"⟩],
         groups := [("XYZXYZ", ["S"])], connected := ["S"] },
       [⟨"S", "room-created", Payload.roomCreated "XYZXYZ" "QQQQQQQQQQ"⟩]) ∧
    (-10 : Int) < 0 := by
  constructor
  · decide
  · decide

/-- C7 amended: the handler rejects a nullish or empty `items` payload with
the invalid-input reply; a record failing the schema (empty name or empty
media type) makes the save throw and yields the generic error reply; in
every create-error case no record is persisted.  Sizes are not checked. -/
theorem C7_validation (st : ServerState) (sid shareId dk : String) :
    (createRoom st sid none shareId dk =
      (st, [⟨sid, "create-room-error",
        Payload.errMsg "Invalid file metadata provided."⟩])) ∧
    (createRoom st sid (some []) shareId dk =
      (st, [⟨sid, "create-room-error",
        Payload.errMsg "Invalid file metadata provided."⟩])) ∧
    (∀ md, md ≠ [] → md.all validRecord = false →
      createRoom st sid (some md) shareId dk =
        (st, [⟨sid, "create-room-error",
          Payload.errMsg "Failed to create room on server."⟩])) ∧
    (∀ fm m, m ∈ (createRoom st sid fm shareId dk).2 →
      m.event = "create-room-error" → (createRoom st sid fm shareId dk).1 = st) := by
  refine ⟨rfl, by simp [createRoom], ?_, ?_⟩
  · intro md hmd hall
    have hlen : ¬ md.length = 0 := fun h => hmd (List.eq_nil_of_length_eq_zero h)
    have hsv : saveValid ⟨shareId, sid, [], md, true, dk⟩ = false := by
      simp [saveValid, hall]
    simp [createRoom, hlen, hsv]
  · intro fm m hm hev
    rcases fm with _ | md
    · rfl
    · by_cases h0 : md.length = 0
      · simp [createRoom, h0]
      · by_cases hsv : (!(saveValid ⟨shareId, sid, [], md, true, dk⟩)) = true
        · simp [createRoom, h0, hsv]
        · by_cases hany : (st.db.any (fun r => r.shareId == shareId)
              || st.db.any (fun r => r.deletionKey == dk)) = true
          · simp [createRoom, h0, hsv, hany]
          · simp [createRoom, h0, hsv, hany] at hm
            rw [hm] at hev
            simp at hev

/-- C7 witness: a record with an empty name makes create fail with the
generic error and persist nothing. -/
theorem C7_witness :
    ([⟨"", 10, "text/plain"⟩] : List FileMetadata) ≠ [] ∧
    ([⟨"", 10, "text/plain"⟩] : List FileMetadata).all validRecord = false ∧
    createRoom initState "S" (some [⟨"", 10, "text/plain"⟩]) "AAAAAA" "KKKKKKKKKK" =
      (initState, [⟨"S", "create-room-error",
        Payload.errMsg "Failed to create room on server."⟩]) :=
  ⟨by decide, by decide,
    (C7_validation initState "S" "AAAAAA" "KKKKKKKKKK").2.2.1
      [⟨"", 10, "text/plain"⟩] (by decide) (by decide)⟩

/-- The nanoid alphabet has no repeated character. -/
theorem urlAlphabet_nodup : urlAlphabet.Nodup := by decide

/-- The nanoid alphabet has 64 characters. -/
theorem urlAlphabet_length : urlAlphabet.length = 64 := by decide

/-- A nanoid string has exactly the requested length. -/
theorem nanoid_length (size : Nat) (bytes : Nat → Nat) :
    (nanoid size bytes).length = size := by
  unfold nanoid
  show ((List.range size).map _).length = size
  simp

/-- Every character of a nanoid string is drawn from the alphabet. -/
theorem nanoid_chars (size : Nat) (bytes : Nat → Nat) :
    ∀ c ∈ (nanoid size bytes).data, c ∈ urlAlphabet := by
  intro c hc
  obtain ⟨i, _, hi⟩ := List.mem_map.mp hc
  have hlt : bytes i % 64 < urlAlphabet.length := by
    rw [urlAlphabet_length]; exact Nat.mod_lt _ (by norm_num)
  rw [← hi, List.getD_eq_getElem?_getD, List.getElem?_eq_getElem hlt, Option.getD_some]
  exact List.getElem_mem hlt

/-- Two nanoid strings of the same length coincide only when the masked
random bytes coincide position by position: a collision requires the random
source itself to collide. -/
theorem nanoid_inj (size : Nat) (b1 b2 : Nat → Nat)
    (h : nanoid size b1 = nanoid size b2) :
    ∀ i < size, b1 i % 64 = b2 i % 64 := by
  intro i hi
  have hdata : (List.range size).map (fun j => urlAlphabet.getD (b1 j % 64) 'u') =
      (List.range size).map (fun j => urlAlphabet.getD (b2 j % 64) 'u') :=
    congrArg String.data h
  have h1 : ((List.range size).map (fun j => urlAlphabet.getD (b1 j % 64) 'u'))[i]? =
      ((List.range size).map (fun j => urlAlphabet.getD (b2 j % 64) 'u'))[i]? := by
    rw [hdata]
  rw [List.getElem?_map, List.getElem?_map, List.getElem?_range hi] at h1
  simp only [Option.map_some'] at h1
  have h2 : urlAlphabet.getD (b1 i % 64) 'u' = urlAlphabet.getD (b2 i % 64) 'u' :=
    Option.some.inj h1
  have hl1 : b1 i % 64 < urlAlphabet.length := by
    rw [urlAlphabet_length]; exact Nat.mod_lt _ (by norm_num)
  have hl2 : b2 i % 64 < urlAlphabet.length := by
    rw [urlAlphabet_length]; exact Nat.mod_lt _ (by norm_num)
  rw [List.getD_eq_getElem?_getD, List.getD_eq_getElem?_getD,
    List.getElem?_eq_getElem hl1, List.getElem?_eq_getElem hl2,
    Option.getD_some, Option.getD_some] at h2
  exact (urlAlphabet_nodup.getElem_inj_iff).mp h2

/-- C10: a successful create returns a `publicId` of fixed length 6 and a
`deletionSecret` of fixed length 10, both drawn from the nanoid alphabet,
and two creates can only return equal ids when the masked random byte
streams coincide — distinctness holds with overwhelming probability. -/
theorem C10_id_shape (st : ServerState) (sid : String) (md : List FileMetadata)
    (b1 b2 : Nat → Nat) (p k : String)
    (hsucc : Msg.mk sid "room-created" (Payload.roomCreated p k) ∈
      (createRoom st sid (some md) (nanoid 6 b1) (nanoid 10 b2)).2) :
    p = nanoid 6 b1 ∧ k = nanoid 10 b2 ∧
    p.length = 6 ∧ k.length = 10 ∧ p.length ≠ k.length ∧
    (∀ c ∈ p.data, c ∈ urlAlphabet) ∧ (∀ c ∈ k.data, c ∈ urlAlphabet) ∧
    (∀ b1' : Nat → Nat, nanoid 6 b1 = nanoid 6 b1' →
      ∀ i < 6, b1 i % 64 = b1' i % 64) := by
  have hmain : p = nanoid 6 b1 ∧ k = nanoid 10 b2 := by
    by_cases h0 : md.length = 0
    · exfalso
      simp [createRoom, h0] at hsucc
    · by_cases hsv : (!(saveValid ⟨nanoid 6 b1, sid, [], md, true, nanoid 10 b2⟩)) = true
      · exfalso
        simp [createRoom, h0, hsv] at hsucc
      · by_cases hany : (st.db.any (fun r => r.shareId == nanoid 6 b1)
            || st.db.any (fun r => r.deletionKey == nanoid 10 b2)) = true
        · exfalso
          simp [createRoom, h0, hsv, hany] at hsucc
        · simp [createRoom, h0, hsv, hany] at hsucc
          exact hsucc
  obtain ⟨hp, hk⟩ := hmain
  refine ⟨hp, hk, ?_, ?_, ?_, ?_, ?_, ?_⟩
  · rw [hp, nanoid_length]
  · rw [hk, nanoid_length]
  · rw [hp, hk, nanoid_length, nanoid_length]; decide
  · rw [hp]; exact nanoid_chars 6 b1
  · rw [hk]; exact nanoid_chars 10 b2
  · exact fun b1' h i hi => nanoid_inj 6 b1 b1' h i hi

/-- C10 witness: a concrete create with the identity byte stream returns the
six-character id `useand` and the ten-character secret `useandom-2`. -/
theorem C10_witness :
    Msg.mk "S" "room-created" (Payload.roomCreated "useand" "useandom-2") ∈
      (createRoom initState "S" (some mdA)
        (nanoid 6 (fun i => i)) (nanoid 10 (fun i => i))).2 ∧
    ("useand" : String).length = 6 ∧ ("useandom-2" : String).length = 10 :=
  ⟨by decide,
    (C10_id_shape initState "S" mdA (fun i => i) (fun i => i)
      "useand" "useandom-2" (by decide)).2.2.1,
    (C10_id_shape initState "S" mdA (fun i => i) (fun i => i)
      "useand" "useandom-2" (by decide)).2.2.2.1⟩

/-- C5: when a connection that owns no session as sender disconnects, a
`peer-left` notification carrying its identity goes exactly once to every
other connected socket (globally, not session-scoped), its identity is
pulled from every receiver list, no session record is deleted, and the pull
is the identity when the id is absent. -/
theorem C5_receiver_disconnect (st : ServerState) (sid : String)
    (hns : ∀ r ∈ st.db, r.senderSocketId ≠ sid)
    (hnd : st.connected.Nodup) :
    (disconnect st sid).1.db =
      st.db.map (fun r =>
        { r with receiverSocketIds := r.receiverSocketIds.filter (fun m => m != sid) }) ∧
    (disconnect st sid).1.db.length = st.db.length ∧
    ((∀ r ∈ st.db, sid ∉ r.receiverSocketIds) → (disconnect st sid).1.db = st.db) ∧
    (disconnect st sid).2 =
      (st.connected.filter (fun m => m != sid)).map
        (fun m => ⟨m, "peer-left", Payload.peerLeft sid⟩) ∧
    (∀ m ∈ st.connected, m ≠ sid → msgCount (disconnect st sid).2 m "peer-left" = 1) ∧
    (∀ msg ∈ (disconnect st sid).2, msg.recipient ≠ sid ∧ msg.event = "peer-left" ∧
      msg.payload = Payload.peerLeft sid) := by
  have hfind : st.db.find? (fun r => r.senderSocketId == sid) = none := by
    rw [List.find?_eq_none]
    intro x hx
    simp [hns x hx]
  have heq : disconnect st sid =
      ({ db := st.db.map (fun r =>
           if sid ∈ r.receiverSocketIds then
             { r with receiverSocketIds := r.receiverSocketIds.filter (fun m => m != sid) }
           else r),
         groups := leaveAll st.groups sid,
         connected := st.connected.filter (fun m => m != sid) },
       (st.connected.filter (fun m => m != sid)).map
         (fun m => ⟨m, "peer-left", Payload.peerLeft sid⟩)) := by
    unfold disconnect
    rw [hfind]
  have hfun : (fun r : ShareRoom =>
      if sid ∈ r.receiverSocketIds then
        { r with receiverSocketIds := r.receiverSocketIds.filter (fun m => m != sid) }
      else r) =
      fun r : ShareRoom =>
        { r with receiverSocketIds := r.receiverSocketIds.filter (fun m => m != sid) } := by
    funext r
    by_cases hmem : sid ∈ r.receiverSocketIds
    · rw [if_pos hmem]
    · rw [if_neg hmem, filter_bne_of_not_mem hmem]
  have hdb : (disconnect st sid).1.db =
      st.db.map (fun r =>
        { r with receiverSocketIds := r.receiverSocketIds.filter (fun m => m != sid) }) := by
    rw [heq, ← hfun]
  have hmsgs : (disconnect st sid).2 =
      (st.connected.filter (fun m => m != sid)).map
        (fun m => ⟨m, "peer-left", Payload.peerLeft sid⟩) := by
    rw [heq]
  have hid : ∀ l : List ShareRoom, (∀ r ∈ l, sid ∉ r.receiverSocketIds) →
      l.map (fun r =>
        { r with receiverSocketIds := r.receiverSocketIds.filter (fun m => m != sid) }) = l := by
    intro l
    induction l with
    | nil => intro _; rfl
    | cons a t ih =>
      intro h
      simp only [List.map_cons]
      rw [filter_bne_of_not_mem (h a (List.mem_cons_self a t)),
        ih (fun r hr => h r (List.mem_cons_of_mem a hr))]
  refine ⟨hdb, by rw [hdb, List.length_map], ?_, hmsgs, ?_, ?_⟩
  · intro habs
    rw [hdb]
    exact hid st.db habs
  · intro m hm hmne
    rw [hmsgs, msgCount_map_const]
    apply List.count_eq_one_of_mem (hnd.filter _)
    rw [List.mem_filter]
    exact ⟨hm, by simp [hmne]⟩
  · intro msg hmsg
    rw [hmsgs] at hmsg
    obtain ⟨y, hy, hmm⟩ := List.mem_map.mp hmsg
    rw [List.mem_filter] at hy
    refine ⟨?_, ?_, ?_⟩
    · rw [← hmm]
      simpa using hy.2
    · rw [← hmm]
    · rw [← hmm]

/-- C5 witness: receiver `R1` disconnecting from `stFull` is pulled from the
receiver list, the session survives and `S` and `R2` each get `peer-left`. -/
theorem C5_witness :
    (∀ r ∈ stFull.db, r.senderSocketId ≠ "R1") ∧ stFull.connected.Nodup ∧
    (disconnect stFull "R1").1.db =
      stFull.db.map (fun r =>
        { r with receiverSocketIds := r.receiverSocketIds.filter (fun m => m != "R1") }) ∧
    (disconnect stFull "R1").2 =
      (stFull.connected.filter (fun m => m != "R1")).map
        (fun m => ⟨m, "peer-left", Payload.peerLeft "R1"⟩) :=
  ⟨by decide, by decide,
    (C5_receiver_disconnect stFull "R1" (by decide) (by decide)).1,
    (C5_receiver_disconnect stFull "R1" (by decide) (by decide)).2.2.2.1⟩

/-- C9: a disconnect deletes at most one session: when the disconnecting
connection is sender-of-record of two distinct stored sessions, exactly one
is removed, an owned session remains, every surviving document is an
unchanged original, and no receiver-branch message (`peer-left`) is sent. -/
theorem C9_at_most_one_deleted (st : ServerState) (sid : String) (r1 r2 : ShareRoom)
    (h1 : r1 ∈ st.db) (h2 : r2 ∈ st.db) (hne : r1 ≠ r2)
    (hs1 : r1.senderSocketId = sid) (hs2 : r2.senderSocketId = sid) :
    (disconnect st sid).1.db.length + 1 = st.db.length ∧
    (∃ x ∈ (disconnect st sid).1.db, x.senderSocketId = sid) ∧
    (∀ x ∈ (disconnect st sid).1.db, x ∈ st.db) ∧
    (∀ m ∈ (disconnect st sid).2, m.event = "room-closed-by-sender") := by
  have hfs : ∃ r0, st.db.find? (fun r => r.senderSocketId == sid) = some r0 := by
    cases hf : st.db.find? (fun r => r.senderSocketId == sid) with
    | some r0 => exact ⟨r0, rfl⟩
    | none =>
      rw [List.find?_eq_none] at hf
      exact absurd (by simp [hs1]) (hf r1 h1)
  obtain ⟨r0, hr0⟩ := hfs
  have heq : disconnect st sid =
      ({ db := st.db.eraseP (fun r => r.senderSocketId == sid),
         groups := leaveAll st.groups sid,
         connected := st.connected.filter (fun m => m != sid) },
       (groupMembers (leaveAll st.groups sid) r0.shareId).map
         (fun m => ⟨m, "room-closed-by-sender", Payload.roomClosedBySender⟩)) := by
    unfold disconnect
    rw [hr0]
  have hdb : (disconnect st sid).1.db =
      st.db.eraseP (fun r => r.senderSocketId == sid) := by rw [heq]
  have hmsgs : (disconnect st sid).2 =
      (groupMembers (leaveAll st.groups sid) r0.shareId).map
        (fun m => ⟨m, "room-closed-by-sender", Payload.roomClosedBySender⟩) := by
    rw [heq]
  refine ⟨?_, ?_, ?_, ?_⟩
  · have hl := List.length_eraseP_of_mem h1 (p := fun r => r.senderSocketId == sid)
      (by simp [hs1])
    have hlp : 0 < st.db.length := List.length_pos_of_mem h1
    rw [hdb]
    omega
  · obtain ⟨x, hx, hpx⟩ := eraseP_exists_second (fun r => r.senderSocketId == sid)
      r1 r2 hne (by simp [hs1]) (by simp [hs2]) st.db h1 h2
    rw [hdb]
    exact ⟨x, hx, by simpa using hpx⟩
  · intro x hx
    rw [hdb] at hx
    exact (List.eraseP_sublist _).subset hx
  · intro m hm
    rw [hmsgs] at hm
    obtain ⟨y, hy, hmm⟩ := List.mem_map.mp hm
    rw [← hmm]

/-- C9 witness: `S` owns both `AAAAAA` and `BBBBBB`; its disconnect leaves
exactly one of them (an owned session) in the store. -/
theorem C9_witness :
    (⟨"AAAAAA", "S", [], mdA, true, "K1K1K1K1K1"⟩ : ShareRoom) ∈ stTwoRooms.db ∧
    (⟨"BBBBBB", "S", [], mdA, true, "K2K2K2K2K2"⟩ : ShareRoom) ∈ stTwoRooms.db ∧
    (disconnect stTwoRooms "S").1.db.length + 1 = stTwoRooms.db.length ∧
    (∃ x ∈ (disconnect stTwoRooms "S").1.db, x.senderSocketId = "S") :=
  ⟨by decide, by decide,
    (C9_at_most_one_deleted stTwoRooms "S"
      ⟨"AAAAAA", "S", [], mdA, true, "K1K1K1K1K1"⟩
      ⟨"BBBBBB", "S", [], mdA, true, "K2K2K2K2K2"⟩
      (by decide) (by decide) (by decide) (by decide) (by decide)).1,
    (C9_at_most_one_deleted stTwoRooms "S"
      ⟨"AAAAAA", "S", [], mdA, true, "K1K1K1K1K1"⟩
      ⟨"BBBBBB", "S", [], mdA, true, "K2K2K2K2K2"⟩
      (by decide) (by decide) (by decide) (by decide) (by decide)).2.1⟩

/-- C4: when the sole sender-of-record of a session disconnects, the session
record is removed from the store, `room-closed-by-sender` is delivered
exactly once to every socket still subscribed to that session's group and to
no one else, and the session's `publicId` can no longer be joined. -/
theorem C4_sender_disconnect (st : ServerState) (sid j : String) (r : ShareRoom)
    (hnd : st.db.Nodup)
    (hr : r ∈ st.db) (hs : r.senderSocketId = sid)
    (hu : ∀ x ∈ st.db, x.senderSocketId = sid → x = r)
    (hshare : ∀ x ∈ st.db, x.shareId = r.shareId → x = r)
    (hgm : (groupMembers (leaveAll st.groups sid) r.shareId).Nodup) :
    (∀ x ∈ (disconnect st sid).1.db, x.shareId ≠ r.shareId) ∧
    ((disconnect st sid).2 =
      (groupMembers (leaveAll st.groups sid) r.shareId).map
        (fun m => ⟨m, "room-closed-by-sender", Payload.roomClosedBySender⟩)) ∧
    (∀ m ∈ groupMembers (leaveAll st.groups sid) r.shareId,
      msgCount (disconnect st sid).2 m "room-closed-by-sender" = 1) ∧
    (∀ msg ∈ (disconnect st sid).2,
      msg.recipient ∈ groupMembers (leaveAll st.groups sid) r.shareId ∧
      msg.event = "room-closed-by-sender") ∧
    (joinRoom (disconnect st sid).1 j r.shareId =
      ((disconnect st sid).1,
       [⟨j, "join-room-error",
         Payload.errMsg "Room not found or is no longer available!"⟩])) := by
  have hfind : st.db.find? (fun x => x.senderSocketId == sid) = some r :=
    find?_unique _ r st.db hr (by simp [hs]) (fun x hx hpx => hu x hx (by simpa using hpx))
  have heq : disconnect st sid =
      ({ db := st.db.eraseP (fun x => x.senderSocketId == sid),
         groups := leaveAll st.groups sid,
         connected := st.connected.filter (fun m => m != sid) },
       (groupMembers (leaveAll st.groups sid) r.shareId).map
         (fun m => ⟨m, "room-closed-by-sender", Payload.roomClosedBySender⟩)) := by
    unfold disconnect
    rw [hfind]
  have hdb : (disconnect st sid).1.db =
      st.db.eraseP (fun x => x.senderSocketId == sid) := by rw [heq]
  have hmsgs : (disconnect st sid).2 =
      (groupMembers (leaveAll st.groups sid) r.shareId).map
        (fun m => ⟨m, "room-closed-by-sender", Payload.roomClosedBySender⟩) := by
    rw [heq]
  have hnomatch : ∀ x ∈ st.db.eraseP (fun x => x.senderSocketId == sid),
      ¬ (x.senderSocketId == sid) = true :=
    eraseP_no_match _ r st.db hnd hr (fun x hx hpx => hu x hx (by simpa using hpx))
  have hnoshare : ∀ x ∈ (disconnect st sid).1.db, x.shareId ≠ r.shareId := by
    rw [hdb]
    intro x hx hsh
    have hxdb : x ∈ st.db := (List.eraseP_sublist _).subset hx
    have hxr : x = r := hshare x hxdb hsh
    exact hnomatch x hx (by simp [hxr, hs])
  refine ⟨hnoshare, hmsgs, ?_, ?_, ?_⟩
  · intro m hm
    rw [hmsgs, msgCount_map_const]
    exact List.count_eq_one_of_mem hgm hm
  · intro msg hmsg
    rw [hmsgs] at hmsg
    obtain ⟨y, hy, hmm⟩ := List.mem_map.mp hmsg
    constructor
    · rw [← hmm]; exact hy
    · rw [← hmm]
  · exact join_not_found (disconnect st sid).1 j r.shareId
      (fun x hx hcon => hnoshare x hx hcon.1)

/-- C4 witness: sender `S` of `stFull` disconnecting removes `ABCDEF` and
notifies `R1` and `R2` exactly once each; a later join of `ABCDEF` fails. -/
theorem C4_witness :
    stFull.db.Nodup ∧
    (⟨"ABCDEF", "S", ["R1", "R2"], mdA, true, "KKKKKKKKKK"⟩ : ShareRoom) ∈ stFull.db ∧
    (∀ m ∈ groupMembers (leaveAll stFull.groups "S") "ABCDEF",
      msgCount (disconnect stFull "S").2 m "room-closed-by-sender" = 1) ∧
    (joinRoom (disconnect stFull "S").1 "R3" "ABCDEF" =
      ((disconnect stFull "S").1,
       [⟨"R3", "join-room-error",
         Payload.errMsg "Room not found or is no longer available!"⟩])) :=
  ⟨by decide, by decide,
    (C4_sender_disconnect stFull "S" "R3"
      ⟨"ABCDEF", "S", ["R1", "R2"], mdA, true, "KKKKKKKKKK"⟩
      (by decide) (by decide) (by decide) (by decide) (by decide) (by decide)).2.2.1,
    (C4_sender_disconnect stFull "S" "R3"
      ⟨"ABCDEF", "S", ["R1", "R2"], mdA, true, "KKKKKKKKKK"⟩
      (by decide) (by decide) (by decide) (by decide) (by decide) (by decide)).2.2.2.2⟩

end OneShare
